import Mathlib

/-!
Verification of the tank-draining script (src/app.py) and of the
finite-difference Couette/thermal integrator core described by the design
document.  The integrator core is not present under src/, so its data model
and operations are modelled from the specification text; the tank-draining
functions are embedded directly from src/app.py.
-/

namespace Couette

/-- Modelled from the spec: the configuration record of the missing
finite-difference core (section 3 of the design document): node count N,
domain length H, material coefficients mu, rho, k, cp, boundary values
U_wall and T_wall, requested duration t_max.  Rationals stand in for the
floating-point numbers of the source. -/
structure Config where
  N : ℕ
  H : ℚ
  mu : ℚ
  rho : ℚ
  k : ℚ
  cp : ℚ
  Uwall : ℚ
  Twall : ℚ
  tmax : ℚ

/-- Modelled from the spec: grid spacing dy = H/(N-1). -/
def dy (c : Config) : ℚ := c.H / ((c.N : ℚ) - 1)

/-- Modelled from the spec: momentum diffusivity nu = mu/rho. -/
def nu (c : Config) : ℚ := c.mu / c.rho

/-- Modelled from the spec: thermal diffusivity alpha = k/(rho*cp). -/
def alpha (c : Config) : ℚ := c.k / (c.rho * c.cp)

/-- Modelled from the spec: viscous heating coefficient mu/(rho*cp). -/
def heatCoeff (c : Config) : ℚ := c.mu / (c.rho * c.cp)

/-- Modelled from the spec: the fixed safety factor s = 0.4. -/
def safety : ℚ := 2 / 5

/-- Modelled from the spec: worst-case diffusivity D = max(nu, alpha). -/
def Dmax (c : Config) : ℚ := max (nu c) (alpha c)

/-- Modelled from the spec: stable explicit time step dt = s*dy^2/D. -/
def dt (c : Config) : ℚ := safety * (dy c) ^ 2 / Dmax c

/-- Modelled from the spec: total step count = ceil(t_max/dt). -/
def stepCount (c : Config) : ℕ := (⌈c.tmax / dt c⌉).toNat

/-- Modelled from the spec: the Field State of the missing core, two
scalar fields of nominal length N represented as functions on node
indices. -/
@[ext]
structure FieldState where
  u : ℕ → ℚ
  T : ℕ → ℚ

/-- Modelled from the spec: boundary enforcement, overwriting u[0] with 0,
u[N-1] with U_wall, and T[0], T[N-1] with T_wall, leaving interior nodes
untouched. -/
def applyBC (c : Config) (s : FieldState) : FieldState where
  u := fun i => if i = 0 then 0 else if i = c.N - 1 then c.Uwall else s.u i
  T := fun i => if i = 0 ∨ i = c.N - 1 then c.Twall else s.T i

/-- Modelled from the spec: the interior update of one explicit step.  For
every interior node i = 1..N-2 it applies the diffusion update to u and the
diffusion-plus-viscous-dissipation update to T, reading only the old
arrays; all other nodes are left unchanged. -/
def interiorStep (c : Config) (s : FieldState) : FieldState where
  u := fun i =>
    if 1 ≤ i ∧ i ≤ c.N - 2 then
      s.u i + dt c * nu c * ((s.u (i + 1) - 2 * s.u i + s.u (i - 1)) / (dy c) ^ 2)
    else s.u i
  T := fun i =>
    if 1 ≤ i ∧ i ≤ c.N - 2 then
      s.T i + dt c * alpha c * ((s.T (i + 1) - 2 * s.T i + s.T (i - 1)) / (dy c) ^ 2)
        + dt c * (heatCoeff c * ((s.u (i + 1) - s.u (i - 1)) / (2 * dy c)) ^ 2)
    else s.T i

/-- Modelled from the spec: one full integrator step, the interior update
followed by boundary enforcement. -/
def step (c : Config) (s : FieldState) : FieldState := applyBC c (interiorStep c s)

/-- Modelled from the spec: the initial Field State at t = 0, u uniformly 0
and T uniformly T_wall. -/
def init (c : Config) : FieldState where
  u := fun _ => 0
  T := fun _ => c.Twall

/-- Modelled from the spec: the Field State after n completed integrator
steps of a run. -/
def iterate (c : Config) : ℕ → FieldState
  | 0 => init c
  | n + 1 => step c (iterate c n)

/-- Modelled from the spec: the error taxonomy of the missing core. -/
inductive SimError where
  | configError : SimError
  | numericalInstability : SimError
deriving DecidableEq

/-- Modelled from the spec: configuration validity, checked by the Run
Driver before any stepping begins: N at least 3, H positive, every material
coefficient positive, and worst-case diffusivity D positive. -/
def validConfig (c : Config) : Prop :=
  3 ≤ c.N ∧ 0 < c.H ∧ 0 < c.mu ∧ 0 < c.rho ∧ 0 < c.k ∧ 0 < c.cp ∧ 0 < Dmax c

instance (c : Config) : Decidable (validConfig c) := by
  unfold validConfig
  infer_instance

/-- Modelled from the spec: the Run Driver.  It validates the
configuration; on failure it raises a ConfigurationError before any
integration step executes, on success it runs the full loop and returns
the final Field State together with the number of steps performed. -/
def runDriver (c : Config) : Except SimError (FieldState × ℕ) :=
  if validConfig c then Except.ok (iterate c (stepCount c), stepCount c)
  else Except.error SimError.configError

/-- Modelled from the spec: target number of observable snapshots. -/
def targetCount : ℕ := 50

/-- Modelled from the spec: emission interval = max(1, step_count /
target_count). -/
def interval (sc : ℕ) : ℕ := max 1 (sc / targetCount)

/-- Modelled from the spec: the ordered list of step indices at which the
Snapshot Emitter fires: every step whose index is a multiple of the
interval, plus the final step (index step_count - 1) unconditionally. -/
def emittedSteps (sc : ℕ) : List ℕ :=
  (List.range sc).filter fun i => i % interval sc == 0 || i == sc - 1

/-- Modelled from the spec: the progress fractions step_index/step_count
reported with the emitted snapshots, in emission order. -/
def progressList (sc : ℕ) : List ℚ :=
  (emittedSteps sc).map fun i : ℕ => (i : ℚ) / (sc : ℚ)

/-- The concrete scenario configuration of section 8 of the design
document: N=10, H=0.01, mu=1, rho=1000, k=0.5, cp=1000, U_wall=1,
T_wall=20, t_max=0.01. -/
def cfg0 : Config := ⟨10, 1/100, 1, 1000, 1/2, 1000, 1, 20, 1/100⟩

/-- A concrete non-uniform Field State used to exercise the step formula:
u j = j and T j = j + 1. -/
def fs0 : FieldState := ⟨fun j => (j : ℚ), fun j => (j : ℚ) + 1⟩

end Couette

namespace Tank

noncomputable section

/-- From src/app.py (cylindrical branch): area_top(h) = pi * R^2, a
constant function of the level h. -/
def area_top_cyl (R : ℝ) (_h : ℝ) : ℝ := Real.pi * R ^ 2

/-- From src/app.py: radius_at(h) clamps h into [0, H_geom] and linearly
interpolates the radius between r_bottom and r_top. -/
def radius_at (r_bottom r_top H_geom h : ℝ) : ℝ :=
  r_bottom + (r_top - r_bottom) * (min (max h 0) H_geom / H_geom)

/-- From src/app.py (frustum branch): area_top(h) = pi * radius_at(h)^2. -/
def area_top_frustum (r_bottom r_top H_geom h : ℝ) : ℝ :=
  Real.pi * (radius_at r_bottom r_top H_geom h) ^ 2

/-- From src/app.py: dh_dt(t, h) = -(Cd*A2/A(h)) * sqrt(2*g*max(h, 0.0)),
with the tank cross-section area passed as the function Ah (the source
closes over area_top; both branches of its geometry conditional call the
same area_top).  The unused first argument mirrors the t parameter. -/
def dh_dt (Cd A2 g : ℝ) (Ah : ℝ → ℝ) (_t h : ℝ) : ℝ :=
  -(Cd * A2 / Ah h) * Real.sqrt (2 * g * max h 0)

/-- From src/app.py: ode_wrapper(t, y) reads h = y[0], picks the area for
the current geometry (both branches call area_top) and returns
[-(Cd*A2/Ah) * sqrt(2*g*max(h, 0.0))]; the single list component is
modelled directly. -/
def ode_wrapper (Cd A2 g : ℝ) (Ah : ℝ → ℝ) (_t y0 : ℝ) : ℝ :=
  -(Cd * A2 / Ah y0) * Real.sqrt (2 * g * max y0 0)

/-- From src/app.py: analytic_h_cyl(H, A2, A1, Cd, g, t) =
max(0, sqrt(H) - (Cd*A2/A1)*sqrt(g/2)*t)^2, computed as val*val. -/
def analytic_h_cyl (H A2 A1 Cd g t : ℝ) : ℝ :=
  max 0 (Real.sqrt H - (Cd * A2 / A1) * Real.sqrt (g / 2) * t) *
    max 0 (Real.sqrt H - (Cd * A2 / A1) * Real.sqrt (g / 2) * t)

end

end Tank

/-- Evaluation of the scenario time step: for the concrete
configuration cfg0 the stable time step is exactly 1/2025. -/
theorem cfg0_dt : Couette.dt Couette.cfg0 = 1 / 2025 := by
  norm_num [Couette.dt, Couette.dy, Couette.Dmax, Couette.nu, Couette.alpha,
    Couette.safety, Couette.cfg0]

/-- Evaluation of the scenario step count: ceil(0.01 / (1/2025)) = 21. -/
theorem cfg0_stepCount : Couette.stepCount Couette.cfg0 = 21 := by
  unfold Couette.stepCount
  rw [cfg0_dt]
  have h2 : (⌈Couette.cfg0.tmax / ((1 : ℚ) / 2025)⌉) = 21 := by
    rw [Int.ceil_eq_iff]
    norm_num [Couette.cfg0]
  rw [h2]
  rfl

/-- C1: for every completed integrator step of a run (any configuration
with N at least 3, any step count n at least 1), the Field State satisfies
u[0] = 0, u[N-1] = U_wall, T[0] = T_wall and T[N-1] = T_wall exactly:
boundary values are re-imposed after each interior update. -/
theorem C1_boundary_invariant (c : Couette.Config) (hN : 3 ≤ c.N) (n : ℕ)
    (hn : 1 ≤ n) :
    (Couette.iterate c n).u 0 = 0 ∧
    (Couette.iterate c n).u (c.N - 1) = c.Uwall ∧
    (Couette.iterate c n).T 0 = c.Twall ∧
    (Couette.iterate c n).T (c.N - 1) = c.Twall := by
  obtain ⟨m, rfl⟩ : ∃ m, n = m + 1 := ⟨n - 1, by omega⟩
  have hne : c.N - 1 ≠ 0 := by omega
  simp [Couette.iterate, Couette.step, Couette.applyBC, hne]

/-- Witness for C1 at the scenario configuration after 4 steps. -/
theorem C1_boundary_invariant_witness :
    (3 ≤ Couette.cfg0.N ∧ 1 ≤ 4) ∧
    ((Couette.iterate Couette.cfg0 4).u 0 = 0 ∧
     (Couette.iterate Couette.cfg0 4).u (Couette.cfg0.N - 1) = Couette.cfg0.Uwall ∧
     (Couette.iterate Couette.cfg0 4).T 0 = Couette.cfg0.Twall ∧
     (Couette.iterate Couette.cfg0 4).T (Couette.cfg0.N - 1) = Couette.cfg0.Twall) :=
  ⟨⟨by norm_num [Couette.cfg0], by norm_num⟩,
   C1_boundary_invariant Couette.cfg0 (by norm_num [Couette.cfg0]) 4 (by norm_num)⟩

/-- C7 counterexample: at the scenario configuration (U_wall = 1), boundary
enforcement on the initial state is not a no-op: it changes u at node
N-1 = 9 from 0 to U_wall = 1. -/
theorem C7_counterexample :
    (Couette.applyBC Couette.cfg0 (Couette.init Couette.cfg0)).u (Couette.cfg0.N - 1) ≠
      (Couette.init Couette.cfg0).u (Couette.cfg0.N - 1) := by
  norm_num [Couette.applyBC, Couette.init, Couette.cfg0]

/-- C7 amended: at creation the Field State has u[i] = 0 and T[i] = T_wall
for every i; boundary enforcement on the initial state leaves T and u[0]
unchanged and only overwrites u[N-1] with U_wall, so it changes nothing
exactly when U_wall = 0 (with U_wall > 0, as the configuration contract
requires, the boundary invariant u[N-1] = U_wall does not yet hold at
creation). -/
theorem C7_initial_state (c : Couette.Config) (hN : 3 ≤ c.N) :
    (∀ i, (Couette.init c).u i = 0 ∧ (Couette.init c).T i = c.Twall) ∧
    (∀ i, (Couette.applyBC c (Couette.init c)).T i = c.Twall) ∧
    (Couette.applyBC c (Couette.init c)).u 0 = 0 ∧
    (∀ i, i ≠ c.N - 1 → (Couette.applyBC c (Couette.init c)).u i = 0) ∧
    (Couette.applyBC c (Couette.init c)).u (c.N - 1) = c.Uwall ∧
    (c.Uwall = 0 → Couette.applyBC c (Couette.init c) = Couette.init c) := by
  have hne : c.N - 1 ≠ 0 := by omega
  refine ⟨fun i => ⟨rfl, rfl⟩, ?_, ?_, ?_, ?_, ?_⟩
  · intro i
    by_cases hi : i = 0 ∨ i = c.N - 1 <;> simp [Couette.applyBC, Couette.init, hi]
  · simp [Couette.applyBC]
  · intro i hi
    by_cases hi0 : i = 0 <;> simp [Couette.applyBC, Couette.init, hi0, hi]
  · simp [Couette.applyBC, hne]
  · intro hU
    ext i
    · by_cases hi0 : i = 0 <;> by_cases hiN : i = c.N - 1 <;>
        simp [Couette.applyBC, Couette.init, hi0, hiN, hU]
    · by_cases hi : i = 0 ∨ i = c.N - 1 <;> simp [Couette.applyBC, Couette.init, hi]

/-- Witness for C7 amended at the scenario configuration. -/
theorem C7_initial_state_witness :
    3 ≤ Couette.cfg0.N ∧
    ((∀ i, (Couette.init Couette.cfg0).u i = 0 ∧
           (Couette.init Couette.cfg0).T i = Couette.cfg0.Twall) ∧
     (∀ i, (Couette.applyBC Couette.cfg0 (Couette.init Couette.cfg0)).T i =
           Couette.cfg0.Twall) ∧
     (Couette.applyBC Couette.cfg0 (Couette.init Couette.cfg0)).u 0 = 0 ∧
     (∀ i, i ≠ Couette.cfg0.N - 1 →
           (Couette.applyBC Couette.cfg0 (Couette.init Couette.cfg0)).u i = 0) ∧
     (Couette.applyBC Couette.cfg0 (Couette.init Couette.cfg0)).u (Couette.cfg0.N - 1) =
       Couette.cfg0.Uwall ∧
     (Couette.cfg0.Uwall = 0 →
       Couette.applyBC Couette.cfg0 (Couette.init Couette.cfg0) =
         Couette.init Couette.cfg0)) :=
  ⟨by norm_num [Couette.cfg0],
   C7_initial_state Couette.cfg0 (by norm_num [Couette.cfg0])⟩

/-- C2: for every valid configuration the Stability Controller returns
exactly dt = s*dy^2/max(nu, alpha) with s = 0.4 and step_count =
ceil(t_max/dt); in particular for the scenario configuration (N=10,
H=0.01, U_wall=1, mu=1, rho=1000, k=0.5, cp=1000, t_max=0.01) it returns
dt = 1/2025 (about 4.94e-4) and step_count = 21, deterministically. -/
theorem C2_stability_controller (c : Couette.Config) (h : Couette.validConfig c)
    (htmax : 0 < c.tmax) :
    Couette.dt c = (2 / 5) * (Couette.dy c) ^ 2 / max (Couette.nu c) (Couette.alpha c) ∧
    0 < Couette.dt c ∧
    (Couette.stepCount c : ℤ) = ⌈c.tmax / Couette.dt c⌉ ∧
    Couette.dt Couette.cfg0 = 1 / 2025 ∧
    Couette.stepCount Couette.cfg0 = 21 := by
  obtain ⟨hN, hH, hmu, hrho, hk, hcp, hD⟩ := h
  have hdy : 0 < Couette.dy c := by
    have hN' : (0 : ℚ) < (c.N : ℚ) - 1 := by
      have : (3 : ℚ) ≤ (c.N : ℚ) := by exact_mod_cast hN
      linarith
    exact div_pos hH hN'
  have hdt : 0 < Couette.dt c := by
    unfold Couette.dt Couette.safety
    positivity
  refine ⟨rfl, hdt, ?_, cfg0_dt, cfg0_stepCount⟩
  unfold Couette.stepCount
  exact Int.toNat_of_nonneg (Int.ceil_nonneg (le_of_lt (div_pos htmax hdt)))

/-- Witness for C2 at the scenario configuration. -/
theorem C2_stability_controller_witness :
    (Couette.validConfig Couette.cfg0 ∧ 0 < Couette.cfg0.tmax) ∧
    (Couette.dt Couette.cfg0 =
       (2 / 5) * (Couette.dy Couette.cfg0) ^ 2 /
         max (Couette.nu Couette.cfg0) (Couette.alpha Couette.cfg0) ∧
     0 < Couette.dt Couette.cfg0 ∧
     (Couette.stepCount Couette.cfg0 : ℤ) = ⌈Couette.cfg0.tmax / Couette.dt Couette.cfg0⌉ ∧
     Couette.dt Couette.cfg0 = 1 / 2025 ∧
     Couette.stepCount Couette.cfg0 = 21) :=
  ⟨⟨by norm_num [Couette.validConfig, Couette.Dmax, Couette.nu, Couette.alpha,
      Couette.cfg0], by norm_num [Couette.cfg0]⟩,
   C2_stability_controller Couette.cfg0
     (by norm_num [Couette.validConfig, Couette.Dmax, Couette.nu, Couette.alpha,
        Couette.cfg0])
     (by norm_num [Couette.cfg0])⟩

/-- C3: one integrator step maps the old state (u, T) to a new state in
which, for every interior node i = 1..N-2, the velocity gets the explicit
diffusion update and the temperature gets the diffusion update plus the
viscous-dissipation source, every right-hand side reading exclusively from
the previous step's arrays. -/
theorem C3_step_formula (c : Couette.Config) (s : Couette.FieldState) (i : ℕ)
    (h1 : 1 ≤ i) (h2 : i ≤ c.N - 2) :
    (Couette.step c s).u i =
      s.u i + Couette.dt c * Couette.nu c *
        ((s.u (i + 1) - 2 * s.u i + s.u (i - 1)) / (Couette.dy c) ^ 2) ∧
    (Couette.step c s).T i =
      s.T i + Couette.dt c * Couette.alpha c *
        ((s.T (i + 1) - 2 * s.T i + s.T (i - 1)) / (Couette.dy c) ^ 2)
      + Couette.dt c * (c.mu / (c.rho * c.cp)) *
          ((s.u (i + 1) - s.u (i - 1)) / (2 * Couette.dy c)) ^ 2 := by
  have hi0 : i ≠ 0 := by omega
  have hiN : i ≠ c.N - 1 := by omega
  constructor
  · simp [Couette.step, Couette.applyBC, Couette.interiorStep, hi0, hiN, h1, h2]
  · simp only [Couette.step, Couette.applyBC, Couette.interiorStep]
    rw [if_neg, if_pos ⟨h1, h2⟩]
    · unfold Couette.heatCoeff
      ring
    · push_neg
      exact ⟨hi0, hiN⟩

/-- Witness for C3: the scenario configuration, the concrete state fs0
with u j = j and T j = j + 1, at interior node i = 3. -/
theorem C3_step_formula_witness :
    (1 ≤ 3 ∧ 3 ≤ Couette.cfg0.N - 2) ∧
    ((Couette.step Couette.cfg0 Couette.fs0).u 3 =
      Couette.fs0.u 3 + Couette.dt Couette.cfg0 * Couette.nu Couette.cfg0 *
        ((Couette.fs0.u (3 + 1) - 2 * Couette.fs0.u 3 + Couette.fs0.u (3 - 1)) /
          (Couette.dy Couette.cfg0) ^ 2) ∧
     (Couette.step Couette.cfg0 Couette.fs0).T 3 =
      Couette.fs0.T 3 + Couette.dt Couette.cfg0 * Couette.alpha Couette.cfg0 *
        ((Couette.fs0.T (3 + 1) - 2 * Couette.fs0.T 3 + Couette.fs0.T (3 - 1)) /
          (Couette.dy Couette.cfg0) ^ 2)
      + Couette.dt Couette.cfg0 * (Couette.cfg0.mu / (Couette.cfg0.rho * Couette.cfg0.cp)) *
          ((Couette.fs0.u (3 + 1) - Couette.fs0.u (3 - 1)) /
            (2 * Couette.dy Couette.cfg0)) ^ 2) :=
  ⟨⟨by norm_num, by norm_num [Couette.cfg0]⟩,
   C3_step_formula Couette.cfg0 Couette.fs0 3
     (by norm_num) (by norm_num [Couette.cfg0])⟩

/-- C5: for every configuration with N < 3, H nonpositive, any material
coefficient nonpositive, or max(nu, alpha) nonpositive, the Run Driver
raises a ConfigurationError; no integration step executes and no Field
State is produced. -/
theorem C5_configuration_error (c : Couette.Config)
    (h : c.N < 3 ∨ c.H ≤ 0 ∨ c.mu ≤ 0 ∨ c.rho ≤ 0 ∨ c.k ≤ 0 ∨ c.cp ≤ 0 ∨
         Couette.Dmax c ≤ 0) :
    Couette.runDriver c = Except.error Couette.SimError.configError := by
  have hnv : ¬ Couette.validConfig c := by
    intro hv
    obtain ⟨hN, hH, hmu, hrho, hk, hcp, hD⟩ := hv
    rcases h with h | h | h | h | h | h | h
    · omega
    all_goals linarith
  simp [Couette.runDriver, hnv]

/-- Witness for C5 at a degenerate configuration with only two nodes. -/
theorem C5_configuration_error_witness :
    ((2 : ℕ) < 3 ∨ (1 : ℚ) ≤ 0 ∨ (1 : ℚ) ≤ 0 ∨ (1000 : ℚ) ≤ 0 ∨ (1/2 : ℚ) ≤ 0 ∨
      (1000 : ℚ) ≤ 0 ∨ Couette.Dmax ⟨2, 1, 1, 1000, 1/2, 1000, 1, 20, 1⟩ ≤ 0) ∧
    Couette.runDriver ⟨2, 1, 1, 1000, 1/2, 1000, 1, 20, 1⟩ =
      Except.error Couette.SimError.configError :=
  ⟨Or.inl (by norm_num),
   C5_configuration_error ⟨2, 1, 1, 1000, 1/2, 1000, 1, 20, 1⟩ (Or.inl (by norm_num))⟩

/-- C6: for every run with step_count at least 1 and target snapshot count
50, the Snapshot Emitter emits exactly at the steps whose index is a
multiple of interval = max(1, step_count / target_count) plus
unconditionally at the final step; the emitted progress fractions
step_index/step_count are strictly increasing across the emitted sequence,
and the last emitted snapshot corresponds to the terminal step
step_count - 1. -/
theorem C6_snapshot_cadence (sc : ℕ) (hsc : 1 ≤ sc) :
    (∀ i, i ∈ Couette.emittedSteps sc ↔
      i < sc ∧ (i % Couette.interval sc = 0 ∨ i = sc - 1)) ∧
    List.Pairwise (· < ·) (Couette.progressList sc) ∧
    (Couette.emittedSteps sc).getLast? = some (sc - 1) := by
  refine ⟨?_, ?_, ?_⟩
  · intro i
    simp [Couette.emittedSteps, List.mem_filter, List.mem_range]
  · have hp : (Couette.emittedSteps sc).Pairwise (· < ·) :=
      (List.pairwise_lt_range sc).sublist (List.filter_sublist _)
    have hsc' : (0 : ℚ) < (sc : ℚ) := by exact_mod_cast hsc
    simp only [Couette.progressList, List.pairwise_map]
    refine hp.imp ?_
    intro a b hab
    exact (div_lt_div_iff_of_pos_right hsc').mpr (by exact_mod_cast hab)
  · obtain ⟨m, rfl⟩ : ∃ m, sc = m + 1 := ⟨sc - 1, by omega⟩
    unfold Couette.emittedSteps
    rw [List.range_succ, List.filter_append]
    have hsing : List.filter
        (fun i => i % Couette.interval (m + 1) == 0 || i == (m + 1) - 1) [m] = [m] := by
      simp
    rw [hsing]
    simp [List.getLast?_concat]

/-- Witness for C6 at step_count = 1000 (the spec's cadence scenario). -/
theorem C6_snapshot_cadence_witness :
    1 ≤ 1000 ∧
    ((∀ i, i ∈ Couette.emittedSteps 1000 ↔
       i < 1000 ∧ (i % Couette.interval 1000 = 0 ∨ i = 1000 - 1)) ∧
     List.Pairwise (· < ·) (Couette.progressList 1000) ∧
     (Couette.emittedSteps 1000).getLast? = some (1000 - 1)) :=
  ⟨by norm_num, C6_snapshot_cadence 1000 (by norm_num)⟩

/-- C8: for every real level h and every configuration with Cd at least 0,
A2 positive, g at least 0 and positive tank radii, the drain-rate
functions dh_dt and ode_wrapper are defined (the square-root argument
2*g*max(h,0) is never negative) and return a value at most 0, in both
geometry branches; for every h at most 0 they return exactly 0, so the
empty tank is a fixed point and the modeled level never rises. -/
theorem C8_drain_rate_nonpositive (Cd A2 g R r_bottom r_top H_geom t h : ℝ)
    (hCd : 0 ≤ Cd) (hA2 : 0 < A2) (hg : 0 ≤ g)
    (hR : 0 < R) (hrb : 0 < r_bottom) (hrt : 0 < r_top) :
    0 ≤ 2 * g * max h 0 ∧
    Tank.dh_dt Cd A2 g (Tank.area_top_cyl R) t h ≤ 0 ∧
    Tank.dh_dt Cd A2 g (Tank.area_top_frustum r_bottom r_top H_geom) t h ≤ 0 ∧
    Tank.ode_wrapper Cd A2 g (Tank.area_top_cyl R) t h ≤ 0 ∧
    Tank.ode_wrapper Cd A2 g (Tank.area_top_frustum r_bottom r_top H_geom) t h ≤ 0 ∧
    (h ≤ 0 →
      Tank.dh_dt Cd A2 g (Tank.area_top_cyl R) t h = 0 ∧
      Tank.dh_dt Cd A2 g (Tank.area_top_frustum r_bottom r_top H_geom) t h = 0 ∧
      Tank.ode_wrapper Cd A2 g (Tank.area_top_cyl R) t h = 0 ∧
      Tank.ode_wrapper Cd A2 g (Tank.area_top_frustum r_bottom r_top H_geom) t h = 0) := by
  have harg : 0 ≤ 2 * g * max h 0 :=
    mul_nonneg (mul_nonneg (by norm_num) hg) (le_max_right h 0)
  have key : ∀ A : ℝ, 0 ≤ A →
      -(Cd * A2 / A) * Real.sqrt (2 * g * max h 0) ≤ 0 := by
    intro A hA
    have h1 : 0 ≤ Cd * A2 / A := div_nonneg (mul_nonneg hCd hA2.le) hA
    have h2 : 0 ≤ Real.sqrt (2 * g * max h 0) := Real.sqrt_nonneg _
    nlinarith [mul_nonneg h1 h2]
  have hacyl : 0 ≤ Tank.area_top_cyl R h := by
    unfold Tank.area_top_cyl
    positivity
  have hafr : 0 ≤ Tank.area_top_frustum r_bottom r_top H_geom h := by
    unfold Tank.area_top_frustum
    positivity
  have hzero : h ≤ 0 → Real.sqrt (2 * g * max h 0) = 0 := by
    intro hle
    rw [max_eq_right hle, mul_zero, Real.sqrt_zero]
  refine ⟨harg, key _ hacyl, key _ hafr, key _ hacyl, key _ hafr, fun hle => ?_⟩
  refine ⟨?_, ?_, ?_, ?_⟩ <;>
    simp [Tank.dh_dt, Tank.ode_wrapper, hzero hle]

/-- Witness for C8 at Cd = 1, A2 = 1, g = 2, unit radii, t = 0, h = -1. -/
theorem C8_drain_rate_nonpositive_witness :
    (0 ≤ (1 : ℝ) ∧ 0 < (1 : ℝ) ∧ 0 ≤ (2 : ℝ) ∧ 0 < (1 : ℝ)) ∧
    (0 ≤ 2 * (2 : ℝ) * max (-1 : ℝ) 0 ∧
     Tank.dh_dt 1 1 2 (Tank.area_top_cyl 1) 0 (-1) ≤ 0 ∧
     Tank.dh_dt 1 1 2 (Tank.area_top_frustum 1 1 1) 0 (-1) ≤ 0 ∧
     Tank.ode_wrapper 1 1 2 (Tank.area_top_cyl 1) 0 (-1) ≤ 0 ∧
     Tank.ode_wrapper 1 1 2 (Tank.area_top_frustum 1 1 1) 0 (-1) ≤ 0 ∧
     ((-1 : ℝ) ≤ 0 →
       Tank.dh_dt 1 1 2 (Tank.area_top_cyl 1) 0 (-1) = 0 ∧
       Tank.dh_dt 1 1 2 (Tank.area_top_frustum 1 1 1) 0 (-1) = 0 ∧
       Tank.ode_wrapper 1 1 2 (Tank.area_top_cyl 1) 0 (-1) = 0 ∧
       Tank.ode_wrapper 1 1 2 (Tank.area_top_frustum 1 1 1) 0 (-1) = 0)) :=
  ⟨⟨by norm_num, by norm_num, by norm_num, by norm_num⟩,
   C8_drain_rate_nonpositive 1 1 2 1 1 1 1 0 (-1)
     (by norm_num) (by norm_num) (by norm_num) (by norm_num) (by norm_num) (by norm_num)⟩

/-- C9: for every real h, radius_at clamps its argument into [0, H_geom]
and returns a value between min(r_bottom, r_top) and max(r_bottom, r_top);
since both radii are positive, area_top(h) = pi*radius_at(h)^2 is positive
for every h, so the division by the tank area in the drain-rate functions
never divides by zero. -/
theorem C9_radius_clamped_area_positive (r_bottom r_top H_geom h : ℝ)
    (hrb : 0 < r_bottom) (hrt : 0 < r_top) (hH : 0 < H_geom) :
    0 ≤ min (max h 0) H_geom ∧ min (max h 0) H_geom ≤ H_geom ∧
    min r_bottom r_top ≤ Tank.radius_at r_bottom r_top H_geom h ∧
    Tank.radius_at r_bottom r_top H_geom h ≤ max r_bottom r_top ∧
    0 < Tank.area_top_frustum r_bottom r_top H_geom h := by
  have h0 : 0 ≤ min (max h 0) H_geom := le_min (le_max_right h 0) hH.le
  have h1 : min (max h 0) H_geom ≤ H_geom := min_le_right _ _
  have hq0 : 0 ≤ min (max h 0) H_geom / H_geom := div_nonneg h0 hH.le
  have hq1 : min (max h 0) H_geom / H_geom ≤ 1 := (div_le_one hH).mpr h1
  have hlo : min r_bottom r_top ≤ Tank.radius_at r_bottom r_top H_geom h := by
    unfold Tank.radius_at
    rcases le_total r_bottom r_top with hc | hc
    · rw [min_eq_left hc]
      nlinarith [mul_nonneg (sub_nonneg.mpr hc) hq0]
    · rw [min_eq_right hc]
      nlinarith [mul_nonneg (sub_nonneg.mpr hc) (sub_nonneg.mpr hq1)]
  have hhi : Tank.radius_at r_bottom r_top H_geom h ≤ max r_bottom r_top := by
    unfold Tank.radius_at
    rcases le_total r_bottom r_top with hc | hc
    · rw [max_eq_right hc]
      nlinarith [mul_nonneg (sub_nonneg.mpr hc) (sub_nonneg.mpr hq1)]
    · rw [max_eq_left hc]
      nlinarith [mul_nonneg (sub_nonneg.mpr hc) hq0]
  have hrpos : 0 < Tank.radius_at r_bottom r_top H_geom h :=
    lt_of_lt_of_le (lt_min hrb hrt) hlo
  refine ⟨h0, h1, hlo, hhi, ?_⟩
  unfold Tank.area_top_frustum
  exact mul_pos Real.pi_pos (pow_pos hrpos 2)

/-- Witness for C9 at r_bottom = 1, r_top = 2, H_geom = 1, h = 1/2. -/
theorem C9_radius_clamped_area_positive_witness :
    (0 < (1 : ℝ) ∧ 0 < (2 : ℝ)) ∧
    (0 ≤ min (max (1/2 : ℝ) 0) 1 ∧ min (max (1/2 : ℝ) 0) 1 ≤ 1 ∧
     min (1 : ℝ) 2 ≤ Tank.radius_at 1 2 1 (1/2) ∧
     Tank.radius_at 1 2 1 (1/2) ≤ max (1 : ℝ) 2 ∧
     0 < Tank.area_top_frustum 1 2 1 (1/2)) :=
  ⟨⟨by norm_num, by norm_num⟩,
   C9_radius_clamped_area_positive 1 2 1 (1/2)
     (by norm_num) (by norm_num) (by norm_num)⟩

/-- C10: for every H, Cd, A2, g at least 0 and A1 positive, analytic_h_cyl
returns a non-negative value, is non-increasing in t, and for every t at
least sqrt(H)/((Cd*A2/A1)*sqrt(g/2)) (when that coefficient is positive)
it returns exactly 0: the analytic level stays at zero after the drain
time instead of rebounding. -/
theorem C10_analytic_level (H A2 A1 Cd g : ℝ)
    (hH : 0 ≤ H) (hCd : 0 ≤ Cd) (hA2 : 0 ≤ A2) (hA1 : 0 < A1) (hg : 0 ≤ g) :
    (∀ t, 0 ≤ Tank.analytic_h_cyl H A2 A1 Cd g t) ∧
    (∀ t1 t2, t1 ≤ t2 →
      Tank.analytic_h_cyl H A2 A1 Cd g t2 ≤ Tank.analytic_h_cyl H A2 A1 Cd g t1) ∧
    (∀ t, 0 < Cd * A2 / A1 * Real.sqrt (g / 2) →
      Real.sqrt H / (Cd * A2 / A1 * Real.sqrt (g / 2)) ≤ t →
      Tank.analytic_h_cyl H A2 A1 Cd g t = 0) := by
  have hcoef : 0 ≤ Cd * A2 / A1 * Real.sqrt (g / 2) :=
    mul_nonneg (div_nonneg (mul_nonneg hCd hA2) hA1.le) (Real.sqrt_nonneg _)
  refine ⟨?_, ?_, ?_⟩
  · intro t
    exact mul_self_nonneg _
  · intro t1 t2 h12
    unfold Tank.analytic_h_cyl
    have hmul : Cd * A2 / A1 * Real.sqrt (g / 2) * t1 ≤
        Cd * A2 / A1 * Real.sqrt (g / 2) * t2 :=
      mul_le_mul_of_nonneg_left h12 hcoef
    have hv : max 0 (Real.sqrt H - Cd * A2 / A1 * Real.sqrt (g / 2) * t2) ≤
        max 0 (Real.sqrt H - Cd * A2 / A1 * Real.sqrt (g / 2) * t1) :=
      max_le_max le_rfl (by linarith)
    exact mul_le_mul hv hv (le_max_left _ _) (le_max_left _ _)
  · intro t hpos ht
    unfold Tank.analytic_h_cyl
    have hst : Real.sqrt H ≤ Cd * A2 / A1 * Real.sqrt (g / 2) * t := by
      have h1 := (div_le_iff hpos).mp ht
      linarith [h1]
    have hmax : max 0 (Real.sqrt H - Cd * A2 / A1 * Real.sqrt (g / 2) * t) = 0 :=
      max_eq_left (by linarith)
    rw [hmax, mul_zero]

/-- Witness for C10 at H = 1, A2 = 1, A1 = 1, Cd = 1, g = 2. -/
theorem C10_analytic_level_witness :
    (0 ≤ (1 : ℝ) ∧ 0 ≤ (1 : ℝ) ∧ 0 ≤ (1 : ℝ) ∧ 0 < (1 : ℝ) ∧ 0 ≤ (2 : ℝ)) ∧
    ((∀ t, 0 ≤ Tank.analytic_h_cyl 1 1 1 1 2 t) ∧
     (∀ t1 t2, t1 ≤ t2 →
       Tank.analytic_h_cyl 1 1 1 1 2 t2 ≤ Tank.analytic_h_cyl 1 1 1 1 2 t1) ∧
     (∀ t, 0 < (1 : ℝ) * 1 / 1 * Real.sqrt (2 / 2) →
       Real.sqrt 1 / ((1 : ℝ) * 1 / 1 * Real.sqrt (2 / 2)) ≤ t →
       Tank.analytic_h_cyl 1 1 1 1 2 t = 0)) :=
  ⟨⟨by norm_num, by norm_num, by norm_num, by norm_num, by norm_num⟩,
   C10_analytic_level 1 1 1 1 2
     (by norm_num) (by norm_num) (by norm_num) (by norm_num) (by norm_num)⟩
